import Mathlib

/-!
A shallow embedding of the Money value object (src/source/money.js) of the
vo-monetary repository, together with theorems checking the repository's
natural-language specification against it.

Modelling conventions:
* JavaScript numbers are modelled as exact values: a finite number is an
  exact rational (`ℚ`), and the IEEE special values NaN / Infinity /
  -Infinity are explicit constructors of `JSNum`.  The idealisation
  `finite number = exact rational` matches the specification's reading of
  the code (the whole point of the `BigNumber` collaborator is that
  arithmetic is decimal-exact, not binary-floating-point).
* Thrown JavaScript errors are modelled by `Except MoneyError`.
* The external collaborators that are part of this repository or its
  platform but whose code is not under src/ (`Currency`,
  `Space.domain.ValueObject`, the `BigNumber` exact-decimal engine,
  Meteor's `check`) are modelled from the specification's description of
  them; each such definition carries a doc comment saying so.
* Number-to-string conversion: JavaScript stringifies a number of
  magnitude at least 1e21 in exponential notation ("1e+21"), which changes
  the behaviour of the source's `parseFloat(n) === parseInt(n, 10)`
  integer test and of `parseInt(base, 10)` there; both effects are
  modelled explicitly (see `Money._isInteger` and `jsParseIntOfStr`).
-/

/-- Modelled from the spec: the external `Currency` collaborator is "an
opaque, comparable, string-coded identity type", "constructible from a code
string", with "structural equality" and a "stable string representation".
We model it as a wrapper around its code string; code validation is
delegated to the (absent) collaborator and not modelled. -/
structure Currency where
  code : String
deriving DecidableEq, Repr

/-- Modelled from the spec: `new Currency(code)` resolves a code string into
a currency identity. -/
def Currency.mkNew (code : String) : Currency := ⟨code⟩

/-- Modelled from the spec: `new Currency(c)` applied to an existing
`Currency` instance (as done inside `convert`) yields a currency with the
same code. -/
def Currency.ofInstance (c : Currency) : Currency := ⟨c.code⟩

/-- Modelled from the spec: `Currency.equals` is structural equality —
"Equality of currencies is structural (same code), not identity." -/
def Currency.equals (a b : Currency) : Bool := a.code == b.code

/-- Modelled from the spec: the currency's "stable string representation" /
"human-readable code", as used by `toString()` in the error messages. -/
def Currency.str (c : Currency) : String := c.code

/-- A JavaScript number: an exact rational (idealised finite double) or one
of the IEEE special values. -/
inductive JSNum where
  | fin (q : ℚ)
  | nan
  | inf
  | negInf
deriving DecidableEq, Repr

/-- A JavaScript value as far as the Money constructor's dynamic checks are
concerned: a number, a string, or `undefined` (covers a missing value). -/
inductive JSVal where
  | num (n : JSNum)
  | str (s : String)
  | undef
deriving DecidableEq, Repr

/-- `Math.abs`. -/
def jsAbs : JSNum → JSNum
  | .fin q => .fin |q|
  | .nan => .nan
  | .inf => .inf
  | .negInf => .inf

/-- `isFinite(n)`. -/
def jsIsFinite : JSNum → Bool
  | .fin _ => true
  | _ => false

/-- `n * Math.pow(10, d)` for a natural exponent `d` (exact in the model). -/
def jsMulPow10 : JSNum → ℕ → JSNum
  | .fin q, d => .fin (q * 10 ^ d)
  | .nan, _ => .nan
  | .inf, _ => .inf
  | .negInf, _ => .negInf

/-- `Math.floor`. -/
def jsFloor : JSNum → JSNum
  | .fin q => .fin ((⌊q⌋ : ℤ) : ℚ)
  | .nan => .nan
  | .inf => .inf
  | .negInf => .negInf

/-- Truncation toward zero, the rounding used by `parseInt` on the decimal
string of a number. -/
def ratTrunc (q : ℚ) : ℤ :=
  if 0 ≤ q then ⌊q⌋ else ⌈q⌉

/-- Leading decimal digit computation by repeated division, on fuel
(400 steps cover every magnitude a double can reach, far beyond 1e309). -/
def leadingDigitAux : ℕ → ℕ → ℕ
  | _, 0 => 0
  | 0, n => n
  | fuel + 1, n => if n < 10 then n else leadingDigitAux fuel (n / 10)

/-- Leading decimal digit of a natural number. -/
def leadingDigit (n : ℕ) : ℕ := leadingDigitAux 400 n

/-- `parseInt(x.toString(), 10)` applied to a stored number `x` (the code
stores `base` as the decimal string of a number and parses it back with
`parseInt(base, 10)`).  For `|x| < 1e21` the string is plain decimal and
a finite number parses to its integer part truncated toward zero.  For
`|x| ≥ 1e21` the string is exponential ("1e+41"), `parseInt` stops at the
mantissa's decimal point, and the result is the sign together with the
single leading mantissa digit — the leading decimal digit of `|x|`.  The
strings "NaN", "Infinity" and "-Infinity" do not start with a digit
(after the sign, for the last one), so they parse to NaN.  One regime is
out of reach and left as plain truncation: a non-zero `x` of magnitude
below 1e-6 would also stringify exponentially (parsing to a mantissa
digit rather than 0), but in the program `base` is always the string of a
`Math.floor` result — an integer-valued number or a special value — so no
such input occurs. -/
def jsParseIntOfStr : JSNum → JSNum
  | .fin q =>
    if 10 ^ 21 ≤ |q| then
      .fin (((if 0 ≤ q then (leadingDigit ⌊|q|⌋.toNat : ℤ)
        else -(leadingDigit ⌊|q|⌋.toNat : ℤ)) : ℤ) : ℚ)
    else
      .fin ((ratTrunc q : ℤ) : ℚ)
  | .nan => .nan
  | .inf => .nan
  | .negInf => .nan

/-- `x / Math.pow(10, d)` for a natural exponent `d` (exact in the model;
Infinity divided by a finite positive power stays infinite, NaN
propagates). -/
def jsDivPow10 : JSNum → ℕ → JSNum
  | .fin q, d => .fin (q / 10 ^ d)
  | .nan, _ => .nan
  | .inf, _ => .inf
  | .negInf, _ => .negInf

/-- Native JavaScript addition of two numbers (exact in the finite case,
IEEE rules for the special values). -/
def jsAddNum : JSNum → JSNum → JSNum
  | .fin a, .fin b => .fin (a + b)
  | .nan, _ => .nan
  | _, .nan => .nan
  | .inf, .negInf => .nan
  | .negInf, .inf => .nan
  | .inf, _ => .inf
  | _, .inf => .inf
  | .negInf, _ => .negInf
  | _, .negInf => .negInf

/-- The error kinds the specification names, as a structured type.  The
source throws plain `Error`s (and, on one path, a `TypeError`); the
constructors here record which throw-site (or spec-named kind) produced
the error.  `invalidOperand` is listed because the specification names it;
the source never produces it. -/
inductive MoneyError where
  | invalidAmount
  | invalidRate
  | invalidOperand
  | typeError
  | currencyMissmatch (required passed : Currency)
  | sameCurrencyConversion (currency : Currency)
deriving DecidableEq, Repr

/-- Source `Money.ERRORS.currencyMissmatch`: the template literal
`Currency passed '${passed}' does not match required\n    '${required}'`
(the template spans two source lines, hence the newline and indentation). -/
def ERRORS.currencyMissmatchMsg (required passed : Currency) : String :=
  "Currency passed '" ++ (Currency.str passed ++
    ("' does not match required\n    '" ++ (Currency.str required ++ "'")))

/-- Source `Money.ERRORS.sameCurrencyConversion`. -/
def ERRORS.sameCurrencyConversionMsg (currency : Currency) : String :=
  "Converting to same currency '" ++ (Currency.str currency ++ "' is not allowed")

/-- Source `Money.DEFAULT_CURRENCY = 'EUR'`. -/
def DEFAULT_CURRENCY : String := "EUR"

/-- The currency argument accepted by the constructor: a `Currency`
instance, a plain string code, or absent/undefined. -/
inductive CurrencyArg where
  | cur (c : Currency)
  | str (s : String)
  | miss
deriving DecidableEq, Repr

/-- Source constructor lines 30–32:
`if (!(data.currency instanceof Currency)) data.currency = new Currency(data.currency || Money.DEFAULT_CURRENCY)`.
An empty string is falsy in JavaScript, so it also falls back to the
default code. -/
def resolveCurrency : CurrencyArg → Currency
  | .cur c => c
  | .str s => Currency.mkNew (if s = "" then DEFAULT_CURRENCY else s)
  | .miss => Currency.mkNew DEFAULT_CURRENCY

/-- Source `_isInteger(n)`:
`(typeof n === 'number') && parseFloat(n) === parseInt(n, 10) && !isNaN(n)`.
Both parse functions read `String(n)`.  For `|n| < 1e21` that string is
either plain decimal (so `parseInt` keeps the part before the decimal
point and the test holds exactly on integral values) or, below 1e-6,
exponential with a leading mantissa digit in 1..9 — but such an `n` is a
non-integer of magnitude below 1, so the test is false there exactly as
`den ≠ 1` says.  For `|n| ≥ 1e21` the string is exponential ("1e+21"),
`parseInt` stops at the mantissa's decimal point and returns a single
signed digit, which can never equal a value of magnitude ≥ 1e21 — so the
test is false even on integral values; hence the magnitude conjunct.
NaN fails the `!isNaN` test and ±Infinity fail the comparison
(`parseInt` of their strings is NaN). -/
def Money._isInteger : JSNum → Bool
  | .fin q => q.den == 1 && decide (|q| < 10 ^ 21)
  | .nan => false
  | .inf => false
  | .negInf => false

/-- Source `_decimalPlaces` while loop:
`while (!this._isInteger(c) && isFinite(c)) { c = a * Math.pow(10, count++); }`
returning the final `count`.  The JavaScript loop needs no explicit bound
(a growing double eventually passes the integer test or overflows to
Infinity); in the exact-rational model we run it on fuel.  The caller
passes fuel 21, enough to probe `a * 10^0 .. a * 10^20`; since the result
is clamped by `Math.min(count - 1, 20)`, a loop that would only stop at
probe 21 or later (or, in JavaScript, only by overflowing) yields the
same clamped result 20 as the exhausted fuel does. -/
def Money.decimalLoop (a : JSNum) : JSNum → ℕ → ℕ → ℕ
  | _, count, 0 => count
  | c, count, fuel + 1 =>
    if !(Money._isInteger c) && jsIsFinite c then
      Money.decimalLoop a (jsMulPow10 a count) (count + 1) fuel
    else
      count

/-- Source `_decimalPlaces(n)`:
`let a = Math.abs(n); let c = a; let count = 1; while ...; return Math.min(count - 1, 20)`. -/
def Money._decimalPlaces (n : JSNum) : ℕ :=
  let a := jsAbs n
  min (Money.decimalLoop a a 1 21 - 1) 20

/-- The Money value object's fields (source `fields()`): `amount` a number,
`base` (stored in the source as the decimal string of a number — we keep
the number it denotes), `decimals` an integer, `currency` a `Currency`. -/
structure Money where
  amount : JSNum
  base : JSNum
  decimals : ℕ
  currency : Currency
deriving DecidableEq, Repr

/-- Source constructor lines 29–37, the tail shared by every construction
path once `data.amount` (a number) and `data.currency` are set: resolve the
currency, derive `decimals = _decimalPlaces(amount)` and
`base = floor(amount * 10^decimals)`, and freeze the instance.  The
superclass field check (`Space.domain.ValueObject`, modelled from the spec)
accepts any data of these types. -/
def Money.construct (amount : JSNum) (currencyArg : CurrencyArg) : Money :=
  let currency := resolveCurrency currencyArg
  let decimals := Money._decimalPlaces amount
  let base := jsFloor (jsMulPow10 amount decimals)
  ⟨amount, base, decimals, currency⟩

/-- Source constructor, positional call shape `new Money(amount, currency)`
(the else-branch of the shape test): `check(amount, Number)` — modelled
from Meteor's `check`, whose `Number` pattern is `typeof x === 'number'`,
so NaN and ±Infinity pass — then `data.amount = amount`,
`data.currency = currency` (the parameter defaults to
`Money.DEFAULT_CURRENCY`, covered by `CurrencyArg.miss`). -/
def Money.ofNumber (amount : JSVal) (currency : CurrencyArg) : Except MoneyError Money :=
  match amount with
  | .num n => .ok (Money.construct n currency)
  | .str _ => .error .invalidAmount
  | .undef => .error .invalidAmount

/-- A single-object constructor argument
`{amount?, base?, decimals?, currency?}`. -/
structure MoneyRecord where
  amount : Option JSVal
  base : Option JSNum
  decimals : Option ℕ
  currency : CurrencyArg
deriving DecidableEq, Repr

/-- Source constructor, single-object call shape: if `base` and `decimals`
are both present, `data.amount = parseInt(data.base, 10) / Math.pow(10, data.decimals)`;
otherwise `check(data.amount, Number)`.  Lines 33–34 (decimal-place
derivation and `base` recomputation) then run on the resulting amount in
either case — `Money.construct`. -/
def Money.ofRecord (r : MoneyRecord) : Except MoneyError Money :=
  match r.base, r.decimals with
  | some b, some d =>
    .ok (Money.construct (jsDivPow10 (jsParseIntOfStr b) d) r.currency)
  | _, _ =>
    match r.amount with
    | some (.num n) => .ok (Money.construct n r.currency)
    | _ => .error .invalidAmount

/-- Source `valueOf()`: `return this.amount`. -/
def Money.valueOf (self : Money) : JSNum := self.amount

/-- Modelled from the spec: the host language's numeric coercion — using a
Money object in a native arithmetic context such as `money + n` converts it
to a primitive by calling its `valueOf()` and then adds natively. -/
def jsCoercePlus (m : Money) (n : JSNum) : JSNum :=
  jsAddNum (Money.valueOf m) n

/-- Source `isIn(currency)`: `return this.currency.equals(currency)` (the
preceding `check(currency, Currency)` is satisfied by the type of the
argument). -/
def Money.isIn (self : Money) (currency : Currency) : Bool :=
  Currency.equals self.currency currency

/-- The operand of a binary Money operation: an actual Money, or any
non-Money-shaped value (one with no `currency` field, e.g. a plain
number). -/
inductive Operand where
  | money (m : Money)
  | nonMoney
deriving DecidableEq, Repr

/-- Source `_validateCompatibility(other)`:
`if (!other.currency || !this.isIn(other.currency)) throw new Error(Money.ERRORS.currencyMissmatch(this.currency, other.currency))`.
When `other` has no `currency` field the guard is entered with
`other.currency === undefined`, and building the message calls
`undefined.toString()`, so what actually propagates is a `TypeError`
(modelled as `MoneyError.typeError`), not the mismatch `Error`.  On
success the validated Money is returned for the caller to use. -/
def Money._validateCompatibility (self : Money) (other : Operand) : Except MoneyError Money :=
  match other with
  | .nonMoney => .error .typeError
  | .money m =>
    if !(Money.isIn self m.currency) then
      .error (.currencyMissmatch self.currency m.currency)
    else
      .ok m

/-- Modelled from the spec: the external exact-decimal arithmetic
collaborator (`BigNumber`) — "operating without binary-floating-point
error accumulation"; addition of finite values is exact rational addition
(followed by an exact `toNumber()`).  The spec constrains only finite
operands; special values follow the IEEE rules of `jsAddNum`. -/
def bigAdd (a b : JSNum) : JSNum := jsAddNum a b

/-- Modelled from the spec: exact-decimal subtraction (see `bigAdd`). -/
def bigSubtract : JSNum → JSNum → JSNum
  | .fin a, .fin b => .fin (a - b)
  | .nan, _ => .nan
  | _, .nan => .nan
  | .inf, .inf => .nan
  | .negInf, .negInf => .nan
  | .inf, _ => .inf
  | _, .inf => .negInf
  | .negInf, _ => .negInf
  | _, .negInf => .inf

/-- Modelled from the spec: exact-decimal multiplication of finite values.
Non-finite operands are outside the collaborator's stated contract and are
collapsed to NaN here. -/
def bigMultiply : JSNum → JSNum → JSNum
  | .fin a, .fin b => .fin (a * b)
  | _, _ => .nan

/-- Modelled from the spec: exact-decimal division of finite values
(exact rational division here; the collaborator's rounding of
non-terminating quotients at its precision limit is unspecified and not
modelled, and division by zero is outside the contract — `ℚ` gives 0).
Non-finite operands are collapsed to NaN. -/
def bigDivide : JSNum → JSNum → JSNum
  | .fin a, .fin b => .fin (a / b)
  | _, _ => .nan

/-- Modelled from the spec: `percentage(p)` of the collaborator "computes
`amount * p / 100` using exact-decimal arithmetic" and "fails with
`InvalidAmount` if `p` is not numeric". -/
def bigPercentage (a : JSNum) (p : JSVal) : Except MoneyError JSNum :=
  match p with
  | .num (.fin r) =>
    .ok (match a with
      | .fin x => .fin (x * r / 100)
      | _ => .nan)
  | .num _ => .ok .nan
  | .str _ => .error .invalidAmount
  | .undef => .error .invalidAmount

/-- Modelled from the spec: the collaborator's equality comparison of
finite values is exact; comparisons involving NaN are false. -/
def bigIsEqual : JSNum → JSNum → Bool
  | .fin a, .fin b => decide (a = b)
  | .inf, .inf => true
  | .negInf, .negInf => true
  | _, _ => false

/-- Modelled from the spec: exact strict greater-than on finite values. -/
def bigIsGreaterThan : JSNum → JSNum → Bool
  | .fin a, .fin b => decide (b < a)
  | .inf, .inf => false
  | .negInf, .negInf => false
  | .nan, _ => false
  | _, .nan => false
  | .inf, _ => true
  | _, .inf => false
  | .negInf, _ => false
  | _, .negInf => true

/-- Modelled from the spec: exact greater-than-or-equal on finite values. -/
def bigIsGreaterThanOrEqualTo : JSNum → JSNum → Bool
  | .fin a, .fin b => decide (b ≤ a)
  | x, y => bigIsEqual x y || bigIsGreaterThan x y

/-- Modelled from the spec: exact strict less-than on finite values. -/
def bigIsLessThan (a b : JSNum) : Bool := bigIsGreaterThan b a

/-- Modelled from the spec: exact less-than-or-equal on finite values. -/
def bigIsLessThanOrEqualTo (a b : JSNum) : Bool := bigIsGreaterThanOrEqualTo b a

/-- Source `add(other)`: validate compatibility, then
`new Money({amount: new BigNumber(this.amount).add(other.amount).toNumber(), currency: this.currency})`. -/
def Money.add (self : Money) (other : Operand) : Except MoneyError Money :=
  match Money._validateCompatibility self other with
  | .error e => .error e
  | .ok m =>
    Money.ofRecord ⟨some (.num (bigAdd self.amount m.amount)), none, none, .cur self.currency⟩

/-- Source `subtract(other)`. -/
def Money.subtract (self : Money) (other : Operand) : Except MoneyError Money :=
  match Money._validateCompatibility self other with
  | .error e => .error e
  | .ok m =>
    Money.ofRecord ⟨some (.num (bigSubtract self.amount m.amount)), none, none, .cur self.currency⟩

/-- Source `multiply(other)`. -/
def Money.multiply (self : Money) (other : Operand) : Except MoneyError Money :=
  match Money._validateCompatibility self other with
  | .error e => .error e
  | .ok m =>
    Money.ofRecord ⟨some (.num (bigMultiply self.amount m.amount)), none, none, .cur self.currency⟩

/-- Source `divide(other)`. -/
def Money.divide (self : Money) (other : Operand) : Except MoneyError Money :=
  match Money._validateCompatibility self other with
  | .error e => .error e
  | .ok m =>
    Money.ofRecord ⟨some (.num (bigDivide self.amount m.amount)), none, none, .cur self.currency⟩

/-- Source `percentage(percentage)`: no compatibility validation; the
collaborator computes the percentage and the result is wrapped in a new
Money with the same currency. -/
def Money.percentage (self : Money) (p : JSVal) : Except MoneyError Money :=
  match bigPercentage self.amount p with
  | .error e => .error e
  | .ok result =>
    Money.ofRecord ⟨some (.num result), none, none, .cur self.currency⟩

/-- Source `delta(other)`: validate compatibility, then return the plain
number `new BigNumber(this.amount).subtract(other.amount).toNumber()`. -/
def Money.delta (self : Money) (other : Operand) : Except MoneyError JSNum :=
  match Money._validateCompatibility self other with
  | .error e => .error e
  | .ok m => .ok (bigSubtract self.amount m.amount)

/-- Source `isEqual(other)`. -/
def Money.isEqual (self : Money) (other : Operand) : Except MoneyError Bool :=
  match Money._validateCompatibility self other with
  | .error e => .error e
  | .ok m => .ok (bigIsEqual self.amount m.amount)

/-- Source `isGreaterThan(other)`. -/
def Money.isGreaterThan (self : Money) (other : Operand) : Except MoneyError Bool :=
  match Money._validateCompatibility self other with
  | .error e => .error e
  | .ok m => .ok (bigIsGreaterThan self.amount m.amount)

/-- Source `isGreaterThanOrEqualTo(other)`. -/
def Money.isGreaterThanOrEqualTo (self : Money) (other : Operand) : Except MoneyError Bool :=
  match Money._validateCompatibility self other with
  | .error e => .error e
  | .ok m => .ok (bigIsGreaterThanOrEqualTo self.amount m.amount)

/-- Source `isLessThan(other)`. -/
def Money.isLessThan (self : Money) (other : Operand) : Except MoneyError Bool :=
  match Money._validateCompatibility self other with
  | .error e => .error e
  | .ok m => .ok (bigIsLessThan self.amount m.amount)

/-- Source `isLessThanOrEqualTo(other)`. -/
def Money.isLessThanOrEqualTo (self : Money) (other : Operand) : Except MoneyError Bool :=
  match Money._validateCompatibility self other with
  | .error e => .error e
  | .ok m => .ok (bigIsLessThanOrEqualTo self.amount m.amount)

/-- Source `convert(rate, currency)`: `check(rate, Number)` (non-numeric
rate throws — the spec names this kind `InvalidRate`), then
`if (this.isIn(currency)) throw Error(ERRORS.sameCurrencyConversion(this.currency))`,
else a new Money from `new BigNumber(this.amount).multiply(rate).toNumber()`
tagged with `new Currency(currency)`. -/
def Money.convert (self : Money) (rate : JSVal) (currency : Currency) : Except MoneyError Money :=
  match rate with
  | .num r =>
    if Money.isIn self currency then
      .error (.sameCurrencyConversion self.currency)
    else
      Money.ofRecord
        ⟨some (.num (bigMultiply self.amount r)), none, none,
          .cur (Currency.ofInstance currency)⟩
  | .str _ => .error .invalidRate
  | .undef => .error .invalidRate

deriving instance DecidableEq for Except

/-- Test fixture: 0.10 USD. -/
def moneyUSD01 : Money := Money.construct (.fin (1/10)) (.cur ⟨"USD"⟩)

/-- Test fixture: 0.20 USD. -/
def moneyUSD02 : Money := Money.construct (.fin (2/10)) (.cur ⟨"USD"⟩)

/-- Test fixture: 1 USD. -/
def moneyUSD1 : Money := Money.construct (.fin 1) (.cur ⟨"USD"⟩)

/-- Test fixture: 2 USD. -/
def moneyUSD2 : Money := Money.construct (.fin 2) (.cur ⟨"USD"⟩)

/-- Test fixture: 1 EUR. -/
def moneyEUR1 : Money := Money.construct (.fin 1) (.cur ⟨"EUR"⟩)

/-! ## Helper lemmas -/

/-- String append is associative (helper for the message-embedding facts). -/
theorem string_append_assoc (a b c : String) : a ++ b ++ c = a ++ (b ++ c) := by
  apply String.ext
  simp [String.data_append, List.append_assoc]

/-- Truncation toward zero is the identity on integers. -/
theorem ratTrunc_intCast (z : ℤ) : ratTrunc ((z : ℤ) : ℚ) = z := by
  unfold ratTrunc
  split <;> simp

/-- Taking the absolute value of the scaled amount does not change its
denominator. -/
theorem den_abs_mul_pow (q : ℚ) (k : ℕ) : (|q| * 10 ^ k).den = (q * 10 ^ k).den := by
  rcases abs_cases q with ⟨h, _⟩ | ⟨h, _⟩ <;> rw [h]
  rw [neg_mul]
  exact Rat.den_neg_eq_den _

/-- Compatibility validation succeeds on equal currency codes and returns
the operand. -/
theorem validate_ok (a b : Money) (h : a.currency.code = b.currency.code) :
    Money._validateCompatibility a (.money b) = .ok b := by
  simp [Money._validateCompatibility, Money.isIn, Currency.equals, h]

/-- Compatibility validation fails on differing currency codes with the
mismatch error carrying both currencies. -/
theorem validate_mismatch (a b : Money) (h : a.currency.code ≠ b.currency.code) :
    Money._validateCompatibility a (.money b)
      = .error (.currencyMissmatch a.currency b.currency) := by
  simp [Money._validateCompatibility, Money.isIn, Currency.equals, h]

/-- If the scaled value `a * 10^k0` is the first probe passing the
source's integer test, the source's while loop, entered at probe index
`j ≤ k0` with enough fuel, stops with `count = k0 + 1`. -/
theorem decimalLoop_finds (a : ℚ) (k0 : ℕ)
    (h1 : Money._isInteger (.fin (a * 10 ^ k0)) = true)
    (h2 : ∀ j < k0, Money._isInteger (.fin (a * 10 ^ j)) = false) :
    ∀ fuel j, j ≤ k0 → k0 - j < fuel →
      Money.decimalLoop (.fin a) (.fin (a * 10 ^ j)) (j + 1) fuel = k0 + 1 := by
  intro fuel
  induction fuel with
  | zero => intro j hj hf; omega
  | succ f ih =>
    intro j hj hf
    by_cases hjk : j = k0
    · subst hjk
      simp [Money.decimalLoop, jsIsFinite, h1]
    · have hjlt : j < k0 := lt_of_le_of_ne hj hjk
      have hstep : Money.decimalLoop (.fin a) (.fin (a * 10 ^ j)) (j + 1) (f + 1)
          = Money.decimalLoop (.fin a) (.fin (a * 10 ^ (j + 1))) (j + 2) f := by
        simp [Money.decimalLoop, jsIsFinite, h2 j hjlt, jsMulPow10]
      rw [hstep]
      exact ih (j + 1) hjlt (by omega)

/-- Characterisation of `_decimalPlaces`: when `k0 ≤ 20` is the least
probe index at which `|q| * 10^k0` passes the source's integer test, the
derived decimal count is exactly `k0`. -/
theorem decimalPlaces_eq (q : ℚ) (k0 : ℕ) (hk : k0 ≤ 20)
    (h1 : Money._isInteger (.fin (|q| * 10 ^ k0)) = true)
    (h2 : ∀ j < k0, Money._isInteger (.fin (|q| * 10 ^ j)) = false) :
    Money._decimalPlaces (.fin q) = k0 := by
  have h := decimalLoop_finds |q| k0 h1 h2 21 0 (Nat.zero_le _) (by omega)
  rw [pow_zero, mul_one] at h
  unfold Money._decimalPlaces
  simp only [jsAbs, h]
  omega

/-- Shared invariant of the construction tail for an amount whose minimal
decimal count `d` is at most 20 and whose scaled integer `|q| * 10^d`
stays below 1e21 (the exponential-notation threshold, beyond which the
source's integer test no longer fires): the derived `decimals` is exactly
`d`, and `base` is the exact integer `q * 10^d` of magnitude below 1e21,
so `base / 10^decimals` recovers the amount exactly. -/
theorem construct_base_spec (q : ℚ) (carg : CurrencyArg) (d : ℕ) (hd : d ≤ 20)
    (hint : (q * 10 ^ d).den = 1) (hmag : |q| * 10 ^ d < 10 ^ 21)
    (hmin : ∀ j < d, (q * 10 ^ j).den ≠ 1) :
    (Money.construct (.fin q) carg).decimals = d ∧
    (∃ z : ℤ, (Money.construct (.fin q) carg).base = .fin ((z : ℤ) : ℚ) ∧
      |z| < 10 ^ 21 ∧ ((z : ℤ) : ℚ) / 10 ^ d = q) := by
  have habs : |q| * 10 ^ d = |q * 10 ^ d| := by
    rw [abs_mul, abs_pow]
    norm_num
  have h1 : Money._isInteger (.fin (|q| * 10 ^ d)) = true := by
    have hden : (|q| * 10 ^ d).den = 1 := by rw [den_abs_mul_pow]; exact hint
    have habs2 : |(|q| * 10 ^ d)| < 10 ^ 21 := by
      rw [abs_of_nonneg (mul_nonneg (abs_nonneg q) (by positivity))]
      exact hmag
    simp [Money._isInteger, hden, habs2]
  have h2 : ∀ j < d, Money._isInteger (.fin (|q| * 10 ^ j)) = false := by
    intro j hj
    have : (|q| * 10 ^ j).den ≠ 1 := by rw [den_abs_mul_pow]; exact hmin j hj
    simp [Money._isInteger, this]
  have hdp : Money._decimalPlaces (.fin q) = d := decimalPlaces_eq q d hd h1 h2
  have hdec : (Money.construct (.fin q) carg).decimals = d := hdp
  have hnum : (((q * 10 ^ d).num : ℤ) : ℚ) = q * 10 ^ d :=
    (Rat.den_eq_one_iff _).mp hint
  refine ⟨hdec, (q * 10 ^ d).num, ?_, ?_, ?_⟩
  · show jsFloor (jsMulPow10 (.fin q) (Money._decimalPlaces (.fin q))) = _
    rw [hdp]
    simp only [jsMulPow10, jsFloor]
    have hfl : (⌊q * 10 ^ d⌋ : ℤ) = (q * 10 ^ d).num := by
      conv_lhs => rw [← hnum]
      exact Int.floor_intCast _
    rw [hfl]
  · have hzq : |(((q * 10 ^ d).num : ℤ) : ℚ)| < 10 ^ 21 := by
      rw [hnum, ← habs]
      exact hmag
    exact_mod_cast hzq
  · rw [hnum]
    field_simp

/-- The mismatch error message embeds both currencies' human-readable
codes: it decomposes around the passed currency's code and around the
required currency's code. -/
theorem currencyMissmatchMsg_embeds (r p : Currency) :
    (∃ s t, ERRORS.currencyMissmatchMsg r p = s ++ (Currency.str p ++ t)) ∧
    (∃ s t, ERRORS.currencyMissmatchMsg r p = s ++ (Currency.str r ++ t)) := by
  constructor
  · exact ⟨"Currency passed '",
      "' does not match required\n    '" ++ (Currency.str r ++ "'"), rfl⟩
  · refine ⟨"Currency passed '" ++ (Currency.str p ++ "' does not match required\n    '"),
      "'", ?_⟩
    unfold ERRORS.currencyMissmatchMsg
    rw [string_append_assoc, string_append_assoc]

/-! ## Claim theorems -/

/-- C1: for two Money values with equal currency, `add`, `subtract`,
`multiply`, `divide`, `percentage` and `delta` produce the exact decimal
(here: exact rational) result of the corresponding operation on the two
amounts — e.g. 0.1 + 0.2 is exactly 0.3 — not a binary floating-point
approximation. -/
theorem arithmetic_exact (a b : Money) (x y : ℚ)
    (hx : a.amount = .fin x) (hy : b.amount = .fin y)
    (hc : a.currency.code = b.currency.code) :
    Money.add a (.money b) = .ok (Money.construct (.fin (x + y)) (.cur a.currency)) ∧
    Money.subtract a (.money b) = .ok (Money.construct (.fin (x - y)) (.cur a.currency)) ∧
    Money.multiply a (.money b) = .ok (Money.construct (.fin (x * y)) (.cur a.currency)) ∧
    Money.divide a (.money b) = .ok (Money.construct (.fin (x / y)) (.cur a.currency)) ∧
    Money.delta a (.money b) = .ok (.fin (x - y)) ∧
    (∀ p : ℚ, Money.percentage a (.num (.fin p))
      = .ok (Money.construct (.fin (x * p / 100)) (.cur a.currency))) := by
  have hv := validate_ok a b hc
  refine ⟨?_, ?_, ?_, ?_, ?_, ?_⟩
  · simp [Money.add, hv, hx, hy, bigAdd, jsAddNum, Money.ofRecord]
  · simp [Money.subtract, hv, hx, hy, bigSubtract, Money.ofRecord]
  · simp [Money.multiply, hv, hx, hy, bigMultiply, Money.ofRecord]
  · simp [Money.divide, hv, hx, hy, bigDivide, Money.ofRecord]
  · simp [Money.delta, hv, hx, hy, bigSubtract]
  · intro p
    simp [Money.percentage, hx, bigPercentage, Money.ofRecord]

/-- C1 witness: 0.1 + 0.2 = 0.3, 0.3 - 0.2 = 0.1, 0.1 * 0.2 = 0.02,
0.3 / 0.2 = 1.5, 10 percent of 32.32 = 3.232, delta 0.3 0.2 = 0.1 — all
exactly, on concrete USD Money values. -/
theorem arithmetic_exact_witness :
    Money.add moneyUSD01 (.money moneyUSD02)
      = .ok (Money.construct (.fin (3/10)) (.cur ⟨"USD"⟩)) ∧
    Money.subtract (Money.construct (.fin (3/10)) (.cur ⟨"USD"⟩)) (.money moneyUSD02)
      = .ok (Money.construct (.fin (1/10)) (.cur ⟨"USD"⟩)) ∧
    Money.multiply moneyUSD01 (.money moneyUSD02)
      = .ok (Money.construct (.fin (1/50)) (.cur ⟨"USD"⟩)) ∧
    Money.divide (Money.construct (.fin (3/10)) (.cur ⟨"USD"⟩)) (.money moneyUSD02)
      = .ok (Money.construct (.fin (3/2)) (.cur ⟨"USD"⟩)) ∧
    Money.delta (Money.construct (.fin (3/10)) (.cur ⟨"USD"⟩)) (.money moneyUSD02)
      = .ok (.fin (1/10)) ∧
    Money.percentage (Money.construct (.fin (808/25)) (.cur ⟨"USD"⟩)) (.num (.fin 10))
      = .ok (Money.construct (.fin (404/125)) (.cur ⟨"USD"⟩)) := by
  have h1 := (arithmetic_exact moneyUSD01 moneyUSD02 (1/10) (2/10) rfl rfl rfl).1
  have h2 := (arithmetic_exact (Money.construct (.fin (3/10)) (.cur ⟨"USD"⟩)) moneyUSD02
    (3/10) (2/10) rfl rfl rfl).2.1
  have h3 := (arithmetic_exact moneyUSD01 moneyUSD02 (1/10) (2/10) rfl rfl rfl).2.2.1
  have h4 := (arithmetic_exact (Money.construct (.fin (3/10)) (.cur ⟨"USD"⟩)) moneyUSD02
    (3/10) (2/10) rfl rfl rfl).2.2.2.1
  have h6 := (arithmetic_exact (Money.construct (.fin (3/10)) (.cur ⟨"USD"⟩)) moneyUSD02
    (3/10) (2/10) rfl rfl rfl).2.2.2.2.1
  have h5 := (arithmetic_exact (Money.construct (.fin (808/25)) (.cur ⟨"USD"⟩)) moneyUSD02
    (808/25) (2/10) rfl rfl rfl).2.2.2.2.2 10
  norm_num at h1 h2 h3 h4 h5 h6
  exact ⟨h1, h2, h3, h4, h6, h5⟩

set_option maxRecDepth 8000

/-- C2 (amended): for every Money built by the shared construction tail
from an amount whose minimal decimal count `d` is at most 20 and whose
scaled integer `|amount| * 10^d` stays below 1e21 (JavaScript's
exponential-notation threshold), the fields are mutually consistent: the
amount is stored as given, the stored `decimals` is exactly the minimal
non-negative digit count `d` making `base` an integer representation of
the amount, `decimals` never exceeds 20, and `amount = base / 10^decimals`.
The original universal claim fails outside this range — see the
counterexample (2⁻²¹, needing 21 places; and 10²¹, where the stored
`decimals` is 20 instead of the minimal 0). -/
theorem construct_invariant (q : ℚ) (carg : CurrencyArg) (d : ℕ) (hd : d ≤ 20)
    (hint : (q * 10 ^ d).den = 1) (hmag : |q| * 10 ^ d < 10 ^ 21)
    (hmin : ∀ j < d, (q * 10 ^ j).den ≠ 1) :
    (Money.construct (.fin q) carg).amount = .fin q ∧
    (Money.construct (.fin q) carg).decimals = d ∧
    d ≤ 20 ∧
    (∃ z : ℤ, (Money.construct (.fin q) carg).base = .fin ((z : ℤ) : ℚ) ∧
      ((z : ℤ) : ℚ) / 10 ^ d = q) := by
  obtain ⟨h1, z, h2, h3, h4⟩ := construct_base_spec q carg d hd hint hmag hmin
  exact ⟨rfl, h1, hd, z, h2, h4⟩

/-- C2 witness: the amount 0.1 (minimal decimal count 1) instantiates the
invariant. -/
theorem construct_invariant_witness :
    ((1/10 : ℚ) * 10 ^ 1).den = 1 ∧
    |(1/10 : ℚ)| * 10 ^ 1 < 10 ^ 21 ∧
    (∀ j < 1, ((1/10 : ℚ) * 10 ^ j).den ≠ 1) ∧
    ((Money.construct (.fin (1/10)) .miss).amount = .fin (1/10) ∧
     (Money.construct (.fin (1/10)) .miss).decimals = 1 ∧
     (1 : ℕ) ≤ 20 ∧
     (∃ z : ℤ, (Money.construct (.fin (1/10)) .miss).base = .fin ((z : ℤ) : ℚ) ∧
       ((z : ℤ) : ℚ) / 10 ^ 1 = 1/10)) :=
  ⟨by with_unfolding_all decide, by with_unfolding_all decide, by with_unfolding_all decide,
   construct_invariant (1/10) .miss 1 (by decide) (by with_unfolding_all decide)
     (by with_unfolding_all decide) (by with_unfolding_all decide)⟩

/-- C2 counterexample: 2⁻²¹ (an exactly representable binary double whose
decimal expansion has 21 places) gets `decimals = 20`, and the stored
`base` no longer satisfies `amount = base / 10^decimals`; and 10²¹ (an
integer, minimal decimal count 0, also an exact double) gets
`decimals = 20` rather than 0, because its decimal string is exponential
and the source's integer test never fires.  The claim's consistency
invariant fails for these constructor-built instances. -/
theorem construct_invariant_cex :
    (Money.construct (.fin (1/2097152)) .miss).decimals = 20 ∧
    (Money.construct (.fin (1/2097152)) .miss).amount ≠
      jsDivPow10 (jsParseIntOfStr (Money.construct (.fin (1/2097152)) .miss).base)
        (Money.construct (.fin (1/2097152)) .miss).decimals ∧
    (Money.construct (.fin (10 ^ 21)) .miss).decimals = 20 := by
  with_unfolding_all decide

/-- C3: every binary operation between Money values with differing
currency codes fails with the currency-mismatch error, whose message
embeds both currencies' human-readable codes; with equal currency codes
every binary operation succeeds (no such error). -/
theorem cross_currency_guard (a b : Money) :
    (a.currency.code ≠ b.currency.code →
      Money.add a (.money b) = .error (.currencyMissmatch a.currency b.currency) ∧
      Money.subtract a (.money b) = .error (.currencyMissmatch a.currency b.currency) ∧
      Money.multiply a (.money b) = .error (.currencyMissmatch a.currency b.currency) ∧
      Money.divide a (.money b) = .error (.currencyMissmatch a.currency b.currency) ∧
      Money.delta a (.money b) = .error (.currencyMissmatch a.currency b.currency) ∧
      Money.isEqual a (.money b) = .error (.currencyMissmatch a.currency b.currency) ∧
      Money.isGreaterThan a (.money b) = .error (.currencyMissmatch a.currency b.currency) ∧
      Money.isGreaterThanOrEqualTo a (.money b)
        = .error (.currencyMissmatch a.currency b.currency) ∧
      Money.isLessThan a (.money b) = .error (.currencyMissmatch a.currency b.currency) ∧
      Money.isLessThanOrEqualTo a (.money b)
        = .error (.currencyMissmatch a.currency b.currency) ∧
      (∃ s t, ERRORS.currencyMissmatchMsg a.currency b.currency
        = s ++ (Currency.str b.currency ++ t)) ∧
      (∃ s t, ERRORS.currencyMissmatchMsg a.currency b.currency
        = s ++ (Currency.str a.currency ++ t))) ∧
    (a.currency.code = b.currency.code →
      (∃ m, Money.add a (.money b) = .ok m) ∧
      (∃ m, Money.subtract a (.money b) = .ok m) ∧
      (∃ m, Money.multiply a (.money b) = .ok m) ∧
      (∃ m, Money.divide a (.money b) = .ok m) ∧
      (∃ n, Money.delta a (.money b) = .ok n) ∧
      (∃ v, Money.isEqual a (.money b) = .ok v) ∧
      (∃ v, Money.isGreaterThan a (.money b) = .ok v) ∧
      (∃ v, Money.isGreaterThanOrEqualTo a (.money b) = .ok v) ∧
      (∃ v, Money.isLessThan a (.money b) = .ok v) ∧
      (∃ v, Money.isLessThanOrEqualTo a (.money b) = .ok v)) := by
  constructor
  · intro h
    have hv := validate_mismatch a b h
    refine ⟨?_, ?_, ?_, ?_, ?_, ?_, ?_, ?_, ?_, ?_,
      (currencyMissmatchMsg_embeds a.currency b.currency).1,
      (currencyMissmatchMsg_embeds a.currency b.currency).2⟩ <;>
      simp [Money.add, Money.subtract, Money.multiply, Money.divide, Money.delta,
        Money.isEqual, Money.isGreaterThan, Money.isGreaterThanOrEqualTo,
        Money.isLessThan, Money.isLessThanOrEqualTo, hv]
  · intro h
    have hv := validate_ok a b h
    exact ⟨⟨Money.construct (bigAdd a.amount b.amount) (.cur a.currency),
        by simp [Money.add, hv, Money.ofRecord]⟩,
      ⟨Money.construct (bigSubtract a.amount b.amount) (.cur a.currency),
        by simp [Money.subtract, hv, Money.ofRecord]⟩,
      ⟨Money.construct (bigMultiply a.amount b.amount) (.cur a.currency),
        by simp [Money.multiply, hv, Money.ofRecord]⟩,
      ⟨Money.construct (bigDivide a.amount b.amount) (.cur a.currency),
        by simp [Money.divide, hv, Money.ofRecord]⟩,
      ⟨bigSubtract a.amount b.amount, by simp [Money.delta, hv]⟩,
      ⟨bigIsEqual a.amount b.amount, by simp [Money.isEqual, hv]⟩,
      ⟨bigIsGreaterThan a.amount b.amount, by simp [Money.isGreaterThan, hv]⟩,
      ⟨bigIsGreaterThanOrEqualTo a.amount b.amount,
        by simp [Money.isGreaterThanOrEqualTo, hv]⟩,
      ⟨bigIsLessThan a.amount b.amount, by simp [Money.isLessThan, hv]⟩,
      ⟨bigIsLessThanOrEqualTo a.amount b.amount,
        by simp [Money.isLessThanOrEqualTo, hv]⟩⟩

/-- C3 witness: adding 1 USD and 1 EUR raises the mismatch error carrying
both currencies; adding 1 USD and 2 USD succeeds. -/
theorem cross_currency_guard_witness :
    Money.add moneyUSD1 (.money moneyEUR1)
      = .error (.currencyMissmatch moneyUSD1.currency moneyEUR1.currency) ∧
    (∃ m, Money.add moneyUSD1 (.money moneyUSD2) = .ok m) :=
  ⟨((cross_currency_guard moneyUSD1 moneyEUR1).1 (by decide)).1,
   ((cross_currency_guard moneyUSD1 moneyUSD2).2 rfl).1⟩

/-- C4 (amended): the invalid-amount error is raised exactly when the
amount is missing or non-numeric at construction, or when `percentage`
gets a non-numeric argument.  NaN and Infinity are JavaScript numbers, so
`check(amount, Number)` accepts them and construction with them succeeds
(see the counterexample); numeric `percentage` arguments always succeed. -/
theorem invalid_amount_exact :
    (∀ c, Money.ofNumber .undef c = .error .invalidAmount) ∧
    (∀ s c, Money.ofNumber (.str s) c = .error .invalidAmount) ∧
    (∀ n c, Money.ofNumber (.num n) c = .ok (Money.construct n c)) ∧
    (∀ c, Money.ofRecord ⟨none, none, none, c⟩ = .error .invalidAmount) ∧
    (∀ s c, Money.ofRecord ⟨some (.str s), none, none, c⟩ = .error .invalidAmount) ∧
    (∀ c, Money.ofRecord ⟨some .undef, none, none, c⟩ = .error .invalidAmount) ∧
    (∀ m s, Money.percentage m (.str s) = .error .invalidAmount) ∧
    (∀ m, Money.percentage m .undef = .error .invalidAmount) ∧
    (∀ (m : Money) (n : JSNum), ∃ m', Money.percentage m (.num n) = .ok m') := by
  refine ⟨fun c => rfl, fun s c => rfl, fun n c => rfl, fun c => rfl, fun s c => rfl,
    fun c => rfl, ?_, ?_, ?_⟩
  · intro m s; simp [Money.percentage, bigPercentage]
  · intro m; simp [Money.percentage, bigPercentage]
  · intro m n
    have hb : ∃ v, bigPercentage m.amount (.num n) = .ok v := by
      cases n <;> cases hm : m.amount <;> simp [bigPercentage]
    obtain ⟨v, hv⟩ := hb
    exact ⟨Money.construct v (.cur m.currency),
      by simp [Money.percentage, hv, Money.ofRecord]⟩

/-- C4 counterexample: constructing with NaN or Infinity does not fail —
both produce a (frozen) Money instance, refuting the claim that
construction with a non-finite number raises the invalid-amount error. -/
theorem invalid_amount_cex :
    Money.ofNumber (.num .nan) .miss = .ok ⟨.nan, .nan, 0, ⟨"EUR"⟩⟩ ∧
    Money.ofNumber (.num .inf) .miss = .ok ⟨.inf, .inf, 0, ⟨"EUR"⟩⟩ := by
  with_unfolding_all decide

/-- C5 (amended): for every Money built from an amount whose minimal
decimal count `d` is at most 20 and whose scaled integer `|amount| * 10^d`
stays below 1e21 (so `base` stringifies in plain decimal notation),
constructing a new Money from `{base, decimals, currency}` reproduces
identical `amount`, `base`, `decimals` and `currency` — including for
amount 0 (the witness).  The original universal claim fails outside this
range — see the counterexample. -/
theorem roundtrip (q : ℚ) (carg : CurrencyArg) (d : ℕ) (hd : d ≤ 20)
    (hint : (q * 10 ^ d).den = 1) (hmag : |q| * 10 ^ d < 10 ^ 21)
    (hmin : ∀ j < d, (q * 10 ^ j).den ≠ 1) :
    Money.ofRecord ⟨none, some (Money.construct (.fin q) carg).base,
        some (Money.construct (.fin q) carg).decimals,
        .cur (Money.construct (.fin q) carg).currency⟩
      = .ok (Money.construct (.fin q) carg) := by
  obtain ⟨hdec, z, hbase, hzlt, hdiv⟩ := construct_base_spec q carg d hd hint hmag hmin
  show Money.ofRecord _ = _
  unfold Money.ofRecord
  simp only [hbase]
  have hparse : jsParseIntOfStr (.fin ((z : ℤ) : ℚ)) = .fin ((z : ℤ) : ℚ) := by
    have hlt : ¬ (10 ^ 21 ≤ |((z : ℤ) : ℚ)|) := by
      push_neg
      exact_mod_cast hzlt
    simp only [jsParseIntOfStr]
    rw [if_neg hlt]
    simp [ratTrunc_intCast]
  rw [hparse]
  have hdivp : jsDivPow10 (.fin ((z : ℤ) : ℚ)) (Money.construct (.fin q) carg).decimals
      = .fin q := by
    rw [hdec]
    simp [jsDivPow10, hdiv]
  rw [hdivp]
  rfl

/-- C5 witness: the round-trip at amount 0. -/
theorem roundtrip_witness :
    ((0 : ℚ) * 10 ^ 0).den = 1 ∧
    |(0 : ℚ)| * 10 ^ 0 < 10 ^ 21 ∧
    Money.ofRecord ⟨none, some (Money.construct (.fin 0) (.cur ⟨"EUR"⟩)).base,
        some (Money.construct (.fin 0) (.cur ⟨"EUR"⟩)).decimals,
        .cur (Money.construct (.fin 0) (.cur ⟨"EUR"⟩)).currency⟩
      = .ok (Money.construct (.fin 0) (.cur ⟨"EUR"⟩)) :=
  ⟨by with_unfolding_all decide, by with_unfolding_all decide,
   roundtrip 0 (.cur ⟨"EUR"⟩) 0 (by decide) (by with_unfolding_all decide)
     (by with_unfolding_all decide) (by with_unfolding_all decide)⟩

/-- C5 counterexample: for the Money built from 2⁻²¹ (21 decimal places,
clamped to `decimals = 20`), reconstructing from
`{base, decimals, currency}` yields a different amount, refuting the
claim's universal round-trip.  (A second failure mode, 10²¹-scale amounts
whose `base` stringifies exponentially, is exercised in the C2 and C6
counterexamples.) -/
theorem roundtrip_cex :
    (Money.ofRecord ⟨none, some (Money.construct (.fin (1/2097152)) .miss).base,
        some (Money.construct (.fin (1/2097152)) .miss).decimals,
        .cur (Money.construct (.fin (1/2097152)) .miss).currency⟩).map Money.amount
      ≠ .ok (Money.construct (.fin (1/2097152)) .miss).amount := by
  with_unfolding_all decide

/-- C6 (amended): when a Money is constructed from a record with an
integer `base` of magnitude below 1e21 (so its string is plain decimal
and `parseInt` recovers it; a larger base stringifies exponentially and
only its leading mantissa digit is parsed — see the counterexample) and
`decimals`, the amount is computed as `base / 10^decimals`, but the
decimal-place derivation is NOT bypassed: lines 33–34 re-derive
`decimals` (and recompute `base`) from the computed amount, so the
caller-supplied `decimals` value is not stored as such (see the
counterexample). -/
theorem ofRecord_base_path (amt : Option JSVal) (z : ℤ) (d : ℕ) (carg : CurrencyArg)
    (hz : |z| < 10 ^ 21) :
    Money.ofRecord ⟨amt, some (.fin ((z : ℤ) : ℚ)), some d, carg⟩
      = .ok (Money.construct (.fin (((z : ℤ) : ℚ) / 10 ^ d)) carg) ∧
    (Money.ofRecord ⟨amt, some (.fin ((z : ℤ) : ℚ)), some d, carg⟩).map Money.decimals
      = .ok (Money._decimalPlaces (.fin (((z : ℤ) : ℚ) / 10 ^ d))) := by
  have hparse : jsParseIntOfStr (.fin ((z : ℤ) : ℚ)) = .fin ((z : ℤ) : ℚ) := by
    have hlt : ¬ (10 ^ 21 ≤ |((z : ℤ) : ℚ)|) := by
      push_neg
      exact_mod_cast hz
    simp only [jsParseIntOfStr]
    rw [if_neg hlt]
    simp [ratTrunc_intCast]
  constructor
  · unfold Money.ofRecord
    simp only [hparse]
    rfl
  · unfold Money.ofRecord
    simp only [hparse]
    rfl

/-- C6 witness: the repository's own test record `{base: 9999, decimals: 3}`
computes amount 9.999 and re-derives its decimal count. -/
theorem ofRecord_base_path_witness :
    |(9999 : ℤ)| < 10 ^ 21 ∧
    Money.ofRecord ⟨none, some (.fin ((9999 : ℤ) : ℚ)), some 3, .miss⟩
      = .ok (Money.construct (.fin (((9999 : ℤ) : ℚ) / 10 ^ 3)) .miss) ∧
    (Money.ofRecord ⟨none, some (.fin ((9999 : ℤ) : ℚ)), some 3, .miss⟩).map Money.decimals
      = .ok (Money._decimalPlaces (.fin (((9999 : ℤ) : ℚ) / 10 ^ 3))) :=
  ⟨by decide, (ofRecord_base_path none 9999 3 .miss (by decide)).1,
   (ofRecord_base_path none 9999 3 .miss (by decide)).2⟩

/-- C6 counterexample: constructing from `{base: 9990, decimals: 3}` (so
amount 9.99) stores `decimals = 2`, not the caller-supplied 3 — the
supplied `decimals` is re-derived, not trusted.  And a number-typed base
of 10²¹ (the encoding the repository's test uses for base) stringifies as
"1e+21", so `parseInt` yields 1 and the computed amount is 1, not
10²¹ / 10^decimals. -/
theorem ofRecord_base_path_cex :
    (Money.ofRecord ⟨none, some (.fin 9990), some 3, .miss⟩).map Money.decimals = .ok 2 ∧
    (Money.ofRecord ⟨none, some (.fin 9990), some 3, .miss⟩).map Money.decimals ≠ .ok 3 ∧
    (Money.ofRecord ⟨none, some (.fin (10 ^ 21)), some 0, .miss⟩).map Money.amount
      = .ok (.fin 1) := by
  with_unfolding_all decide

/-- C7: `convert` raises the same-currency-conversion error exactly when
the target currency equals the receiver's currency by value (code); for a
differing target it returns a new Money whose amount is exactly
`amount * rate` and whose currency is the target. -/
theorem convert_spec (m : Money) (r : ℚ) (c : Currency) (x : ℚ)
    (hx : m.amount = .fin x) :
    (c.code = m.currency.code →
      Money.convert m (.num (.fin r)) c = .error (.sameCurrencyConversion m.currency)) ∧
    (c.code ≠ m.currency.code →
      ∃ m', Money.convert m (.num (.fin r)) c = .ok m' ∧
        m'.amount = .fin (x * r) ∧ m'.currency = c) := by
  constructor
  · intro h
    simp [Money.convert, Money.isIn, Currency.equals, h]
  · intro h
    have hne : m.currency.code ≠ c.code := fun hh => h hh.symm
    refine ⟨Money.construct (.fin (x * r)) (.cur (Currency.ofInstance c)), ?_, rfl, ?_⟩
    · simp [Money.convert, Money.isIn, Currency.equals, hne, hx, bigMultiply, Money.ofRecord]
    · show resolveCurrency (.cur (Currency.ofInstance c)) = c
      rfl

/-- C7 witness: converting 1 USD at rate 0.88 to USD errors; to EUR it
yields amount exactly 0.88 in EUR. -/
theorem convert_spec_witness :
    Money.convert moneyUSD1 (.num (.fin (22/25))) ⟨"USD"⟩
      = .error (.sameCurrencyConversion moneyUSD1.currency) ∧
    (∃ m', Money.convert moneyUSD1 (.num (.fin (22/25))) ⟨"EUR"⟩ = .ok m' ∧
      m'.amount = .fin (1 * (22/25)) ∧ m'.currency = ⟨"EUR"⟩) :=
  ⟨(convert_spec moneyUSD1 (22/25) ⟨"USD"⟩ 1 rfl).1 rfl,
   (convert_spec moneyUSD1 (22/25) ⟨"EUR"⟩ 1 rfl).2 (by decide)⟩

/-- C8 (amended): when the operand of a binary operation is not
Money-shaped (lacks a currency), every operation throws — but the error is
the TypeError arising while the mismatch branch builds its message from
the missing currency, not a distinct invalid-operand kind (the source
defines no such kind). -/
theorem non_money_operand (a : Money) :
    Money.add a .nonMoney = .error .typeError ∧
    Money.subtract a .nonMoney = .error .typeError ∧
    Money.multiply a .nonMoney = .error .typeError ∧
    Money.divide a .nonMoney = .error .typeError ∧
    Money.delta a .nonMoney = .error .typeError ∧
    Money.isEqual a .nonMoney = .error .typeError ∧
    Money.isGreaterThan a .nonMoney = .error .typeError ∧
    Money.isGreaterThanOrEqualTo a .nonMoney = .error .typeError ∧
    Money.isLessThan a .nonMoney = .error .typeError ∧
    Money.isLessThanOrEqualTo a .nonMoney = .error .typeError ∧
    MoneyError.typeError ≠ MoneyError.invalidOperand :=
  ⟨rfl, rfl, rfl, rfl, rfl, rfl, rfl, rfl, rfl, rfl, by simp⟩

/-- C8 counterexample: adding a non-Money operand to 1 USD raises the
TypeError of the mismatch path, not an invalid-operand error, refuting
the claim that a distinct invalid-operand kind is raised. -/
theorem non_money_operand_cex :
    Money.add moneyUSD1 .nonMoney = .error .typeError ∧
    Money.add moneyUSD1 .nonMoney ≠ .error .invalidOperand := by
  with_unfolding_all decide

/-- C9: comparisons form a strict total order within a currency: with
equal currency codes, amounts x < y give `isLessThan = true` and
`isGreaterThan = false`, and exactly one of `isLessThan`, `isEqual`,
`isGreaterThan` holds. -/
theorem comparison_trichotomy (a b : Money) (x y : ℚ)
    (hx : a.amount = .fin x) (hy : b.amount = .fin y)
    (hc : a.currency.code = b.currency.code) :
    (x < y → Money.isLessThan a (.money b) = .ok true ∧
      Money.isGreaterThan a (.money b) = .ok false) ∧
    ((Money.isLessThan a (.money b) = .ok true ∧ Money.isEqual a (.money b) = .ok false ∧
        Money.isGreaterThan a (.money b) = .ok false) ∨
     (Money.isLessThan a (.money b) = .ok false ∧ Money.isEqual a (.money b) = .ok true ∧
        Money.isGreaterThan a (.money b) = .ok false) ∨
     (Money.isLessThan a (.money b) = .ok false ∧ Money.isEqual a (.money b) = .ok false ∧
        Money.isGreaterThan a (.money b) = .ok true)) := by
  have hv := validate_ok a b hc
  have hlt : Money.isLessThan a (.money b) = .ok (decide (x < y)) := by
    simp [Money.isLessThan, hv, hx, hy, bigIsLessThan, bigIsGreaterThan]
  have hgt : Money.isGreaterThan a (.money b) = .ok (decide (y < x)) := by
    simp [Money.isGreaterThan, hv, hx, hy, bigIsGreaterThan]
  have heq : Money.isEqual a (.money b) = .ok (decide (x = y)) := by
    simp [Money.isEqual, hv, hx, hy, bigIsEqual]
  constructor
  · intro h
    rw [hlt, hgt]
    simp [h, asymm h]
  · rcases lt_trichotomy x y with h | h | h
    · left; rw [hlt, hgt, heq]; simp [h, asymm h, ne_of_lt h]
    · right; left; rw [hlt, hgt, heq]; simp [h]
    · right; right; rw [hlt, hgt, heq]; simp [h, asymm h, (ne_of_lt h).symm, not_lt_of_lt h]

/-- C9 witness: 1 USD vs 2 USD. -/
theorem comparison_trichotomy_witness :
    (Money.isLessThan moneyUSD1 (.money moneyUSD2) = .ok true ∧
      Money.isGreaterThan moneyUSD1 (.money moneyUSD2) = .ok false) ∧
    ((Money.isLessThan moneyUSD1 (.money moneyUSD2) = .ok true ∧
        Money.isEqual moneyUSD1 (.money moneyUSD2) = .ok false ∧
        Money.isGreaterThan moneyUSD1 (.money moneyUSD2) = .ok false) ∨
     (Money.isLessThan moneyUSD1 (.money moneyUSD2) = .ok false ∧
        Money.isEqual moneyUSD1 (.money moneyUSD2) = .ok true ∧
        Money.isGreaterThan moneyUSD1 (.money moneyUSD2) = .ok false) ∨
     (Money.isLessThan moneyUSD1 (.money moneyUSD2) = .ok false ∧
        Money.isEqual moneyUSD1 (.money moneyUSD2) = .ok false ∧
        Money.isGreaterThan moneyUSD1 (.money moneyUSD2) = .ok true)) :=
  ⟨(comparison_trichotomy moneyUSD1 moneyUSD2 1 2 rfl rfl rfl).1 (by norm_num),
   (comparison_trichotomy moneyUSD1 moneyUSD2 1 2 rfl rfl rfl).2⟩

/-- C10 (implicit): `valueOf()` returns the amount, so a Money coerces to
its numeric amount in native arithmetic contexts: `m + n` equals
`m.amount + n` under the host's numeric coercion. -/
theorem valueOf_coercion (m : Money) (x y : ℚ) (hx : m.amount = .fin x) :
    Money.valueOf m = m.amount ∧ jsCoercePlus m (.fin y) = .fin (x + y) := by
  refine ⟨rfl, ?_⟩
  simp [jsCoercePlus, Money.valueOf, hx, jsAddNum]

/-- C10 witness: `new Money(5) + 5 = 10` (the repository's own test
scenario). -/
theorem valueOf_coercion_witness :
    Money.valueOf (Money.construct (.fin 5) .miss) = (Money.construct (.fin 5) .miss).amount ∧
    jsCoercePlus (Money.construct (.fin 5) .miss) (.fin 5) = .fin 10 := by
  have h := valueOf_coercion (Money.construct (.fin 5) .miss) 5 5 rfl
  norm_num at h
  exact h
